import Mathlib

/-!
Shallow embedding of two modules of the EasyTier mesh-VPN daemon:

* `src/easytier/src/instance/virtual_nic.rs` — the virtual NIC bridge
  (packet-protocol inference, packet-info framing, the tunnel read
  stream, and the `VirtualNic` facade);
* `src/easytier/src/peer_center/instance.rs` — the peer-center
  coordinator (center-peer election, the global-map fetch job, the
  local-peers report job, and the route-cost snapshot).

Pure functions are translated directly; the stateful periodic jobs are
embedded as explicit state-passing functions over the state each job
mutates, with the RPC outcome of an iteration supplied as a parameter.
Machine bytes are `Nat` values below 256, timestamps are `Nat` seconds
(`Instant` values are only compared and subtracted), and panics
(`assert!`, `todo!`, out-of-range slicing) are modelled by `Option` with
`none` for the panic.
-/

namespace EasyTier

/-- A machine byte, modelled as a natural number below 256. -/
abbrev Byte := Nat

/-- The `PacketProtocol` enum of virtual_nic.rs: classification of an L3
packet as IPv4, IPv6 or other, from its leading version nibble. -/
inductive PacketProtocol
  | IPv4
  | IPv6
  | Other (p : Nat)
deriving DecidableEq, Repr

/-- Compilation target, selecting which `into_pi_field` body is active.
The Windows body is `unimplemented!()` and is not modelled. -/
inductive Platform
  | linux
  | macos
deriving DecidableEq, Repr

/-- `PacketProtocol::into_pi_field`: the platform-dependent 16-bit
protocol value for the packet-information header.  On Linux/Android it
is `ETH_P_IP = 0x0800` / `ETH_P_IPV6 = 0x86DD`; on macOS/iOS it is
`PF_INET = 2` / `PF_INET6 = 30`.  `Other` is rejected with an I/O
error. -/
def into_pi_field (pl : Platform) : PacketProtocol → Except String Nat
  | .IPv4 => .ok (match pl with | .linux => 0x0800 | .macos => 2)
  | .IPv6 => .ok (match pl with | .linux => 0x86DD | .macos => 30)
  | .Other _ => .error "neither an IPv4 nor IPv6 packet"

/-- `infer_proto`: read the first nibble of the buffer (`buf[0] >> 4`)
and classify.  The Rust code indexes `buf[0]` and so requires a
non-empty buffer; every call site in the embedded code passes a
non-empty slice, and `headD 0` is only a totalisation. -/
def infer_proto (buf : List Byte) : PacketProtocol :=
  match buf.headD 0 / 16 with
  | 4 => .IPv4
  | 6 => .IPv6
  | p => .Other p

/-- Modelled from the spec: the tunnel-packet container (`ZCPacket`,
defined outside the two embedded source files) is used here only
through the observations `inner()` — its full byte buffer — and
`payload_offset()` — the position inside that buffer where the payload
starts, after the reserved header area. -/
structure ZCPacket where
  inner : List Byte
  payload_offset : Nat
deriving DecidableEq, Repr

/-- `TunZCPacketToBytes::fill_packet_info`, called on the 4-byte window
`inner[0..4]`.  The two `write_u16` calls go through the `io::Write`
instance for a mutable byte slice, which replaces the slice by its
remainder after each write.  So the first write puts the flags `0x00
0x00` at offsets 0 and 1 and leaves the cursor at offset 2, and the
subsequent `infer_proto(&buf)` therefore reads the byte at offset 2 of
the original window — a stale header byte, not the first payload byte.
The protocol value is then written at offsets 2 and 3 in network
(big-endian) byte order.  Here `buf` is the whole buffer returned by
`split_off`; the function rewrites its first four bytes. -/
def fill_packet_info (pl : Platform) (buf : List Byte) : Except String (List Byte) :=
  match into_pi_field pl (infer_proto (buf.drop 2)) with
  | .error e => .error e
  | .ok v => .ok (0 :: 0 :: (v / 256) :: (v % 256) :: buf.drop 4)

/-- `TunZCPacketToBytes::into_bytes`.  Asserts `payload_offset >= 4`
(`none` models the panic).  With packet info, `split_off(payload_offset
- 4)` keeps the last four header bytes in front of the payload and
`fill_packet_info` overwrites them in place; without packet info the
result is `inner[payload_offset..]` verbatim.  `split_off` past the end
of the buffer, or a window shorter than four bytes, panics (`none`). -/
def into_bytes (pl : Platform) (has_packet_info : Bool) (p : ZCPacket) :
    Option (Except String (List Byte)) :=
  if p.payload_offset < 4 then
    none
  else if has_packet_info then
    if p.payload_offset - 4 ≤ p.inner.length then
      let rest := p.inner.drop (p.payload_offset - 4)
      if rest.length < 4 then none
      else some (fill_packet_info pl rest)
    else none
  else
    if p.payload_offset ≤ p.inner.length then
      some (.ok (p.inner.drop p.payload_offset))
    else none

/-- Modelled from the spec: `ZCPacket::new_with_reserved_payload(2048)`
allocates a fresh, empty packet with room reserved in front of the
payload.  Only the fact that a fresh packet replaces the cleared buffer
slot matters to the read-stream claims. -/
def new_with_reserved_payload : ZCPacket :=
  { inner := [], payload_offset := 0 }

/-- Outcome of one completed pull on the tunnel read stream:
either the stream ends, or a packet is yielded. -/
inductive StreamPoll
  | endOfStream
  | yielded (p : ZCPacket)
deriving DecidableEq, Repr

/-- Result of the device read issued by one pull: `ok bytes` is a read
of `bytes.length` bytes appended to the packet buffer, `ioError` is a
failed read. -/
inductive ReadResult
  | ok (bytes : List Byte)
  | ioError
deriving DecidableEq, Repr

/-- `TunStream::poll_next`, restricted to a completed pull (lock
acquisition and pending reads are suspension points and do not change
the state).  If no packet is buffered a fresh one is allocated; the
read then either returns 0 bytes (stream ends, slot keeps the packet),
n > 0 bytes (the packet is yielded and the slot is cleared by `take`),
or an error (stream ends, nothing yielded). -/
def poll_next (cur_packet : Option ZCPacket) (r : ReadResult) :
    StreamPoll × Option ZCPacket :=
  let pkt := cur_packet.getD new_with_reserved_payload
  match r with
  | .ok [] => (.endOfStream, some pkt)
  | .ok bytes => (.yielded { pkt with inner := pkt.inner ++ bytes }, none)
  | .ioError => (.endOfStream, some pkt)

/-- The `VirtualNic` builder state: desired device name, queue count and
the interface name resolved at creation.  The namespace guard and the
interface configurer are external collaborators and are not part of the
value's observable state here. -/
structure VirtualNic where
  dev_name : String
  queue_num : Nat
  ifname : Option String
deriving DecidableEq, Repr

/-- `VirtualNic::new`: empty device name, queue count 1, no interface
yet. -/
def VirtualNic.new : VirtualNic :=
  { dev_name := "", queue_num := 1, ifname := none }

/-- `VirtualNic::set_dev_name`: stores the name and returns `Ok`. -/
def set_dev_name (v : VirtualNic) (s : String) : Except String VirtualNic :=
  .ok { v with dev_name := s }

/-- `VirtualNic::set_queue_num`: stores the queue count and returns
`Ok` — unconditionally; no validation happens here. -/
def set_queue_num (v : VirtualNic) (n : Nat) : Except String VirtualNic :=
  .ok { v with queue_num := n }

/-- The pure queue-count gate at the head of
`VirtualNic::create_dev_ret_err`: `if self.queue_num != 1 {
todo!("queue_num != 1") }`.  `none` models the `todo!` panic; the
device and kernel interaction past this gate is external I/O and is not
modelled. -/
def create_dev_queue_gate (v : VirtualNic) : Option VirtualNic :=
  if v.queue_num ≠ 1 then none else some v

/-- `common::PeerId` is a 32-bit node identifier; the embedded code uses
only its total order and equality, so `Nat` suffices. -/
abbrev PeerId := Nat

/-- An opaque map digest; consumers store and compare it only. -/
abbrev Digest := Nat

/-- A route entry, used by `select_center_peer` only through its
`peer_id` field. -/
structure Route where
  peer_id : PeerId
deriving DecidableEq, Repr

/-- `PeerCenterBase::select_center_peer`: `None` when `list_routes()` is
empty, otherwise a fold over the route entries starting from the local
peer id, keeping the smaller id at each step. -/
def select_center_peer (my_peer_id : PeerId) (routes : List Route) : Option PeerId :=
  if routes.isEmpty then
    none
  else
    some (routes.foldl
      (fun min_peer r => if r.peer_id < min_peer then r.peer_id else min_peer)
      my_peer_id)

/-- Latency record stored under a direct peer in the global map; the
cost calculator reads only `latency_ms`. -/
structure DirectConnInfo where
  latency_ms : Int
deriving DecidableEq, Repr

/-- One peer's entry in the global map: its direct peers, keyed by peer
id, modelled as an association list. -/
structure PeerInfoForGlobalMap where
  direct_peers : List (PeerId × DirectConnInfo)
deriving DecidableEq, Repr

/-- `GlobalPeerMap`: mapping from peer id to that peer's info, modelled
as an association list queried with `List.lookup`. -/
structure GlobalPeerMap where
  map : List (PeerId × PeerInfoForGlobalMap)
deriving DecidableEq, Repr

/-- `GlobalPeerMap::new()`: the empty map. -/
def GlobalPeerMap.new : GlobalPeerMap := ⟨[]⟩

/-- The response payload of `get_global_peer_map`: the full map and its
digest. -/
structure GetGlobalPeerMapResponse where
  global_peer_map : GlobalPeerMap
  digest : Digest
deriving DecidableEq, Repr

/-- The per-node state the global-map fetch job mutates: the shared
global map, its digest and the last-map-update timestamp. -/
structure FetchState where
  global_peer_map : GlobalPeerMap
  digest : Digest
  last_update_time : Nat
deriving DecidableEq, Repr

/-- One iteration of the fetch job in `init_get_global_info_job`, after
the transport-level `?` has succeeded: `ret` is the inner
`Result<Option<Resp>, _>` from the center server.  An inner error
returns sleep 1000 and changes nothing; `None` (digest current) returns
sleep 5000 and changes nothing; `Some(resp)` stores the received map and
digest and the current time, and returns sleep 5000. -/
def get_global_info_iteration (st : FetchState) (now : Nat)
    (ret : Except Unit (Option GetGlobalPeerMapResponse)) : Nat × FetchState :=
  match ret with
  | .error _ => (1000, st)
  | .ok none => (5000, st)
  | .ok (some resp) => (5000, ⟨resp.global_peer_map, resp.digest, now⟩)

/-- The state the local-peers report job persists across iterations:
the last reported center peer, the last reported direct-peer set (a
`BTreeSet`, modelled as its sorted key list) and the time of the last
report. -/
structure ReportState where
  last_center_peer : PeerId
  last_report_peers : List PeerId
  last_report_time : Nat
deriving DecidableEq, Repr

/-- Outcome of the `report_peers` RPC: a transport error (propagated by
`?` to the runner), an `Ok` application result, or an application
error. -/
inductive ReportRpcResult
  | transportError
  | okResult
  | errResult
deriving DecidableEq, Repr

/-- The skip condition of the report job: center peer unchanged, last
report under 60 seconds ago (`elapsed().as_secs() < 60`), and the
direct-peer set unchanged. -/
def report_skip (center_peer : PeerId) (now : Nat) (peer_list : List PeerId)
    (st : ReportState) : Bool :=
  center_peer == st.last_center_peer
    && decide (now - st.last_report_time < 60)
    && peer_list == st.last_report_peers

/-- One iteration of the report job in `init_report_peers_job`.  The
first component records whether the `report_peers` RPC was issued.  If
the skip condition holds the iteration returns `Ok(5000)` untouched;
otherwise the RPC is issued and on a transport error the `?` propagates
(`.error`), on `Ok` the three persisted fields are updated, and on an
application error they are left unchanged; both of the latter return
`Ok(5000)`. -/
def report_peers_iteration (center_peer : PeerId) (now : Nat)
    (peer_list : List PeerId) (st : ReportState) (rpc : ReportRpcResult) :
    Bool × Except Unit (Nat × ReportState) :=
  if report_skip center_peer now peer_list st then
    (false, .ok (5000, st))
  else
    match rpc with
    | .transportError => (true, .error ())
    | .okResult => (true, .ok (5000, ⟨center_peer, peer_list, now⟩))
    | .errResult => (true, .ok (5000, st))

/-- The route-cost snapshot object returned by `get_cost_calculator`:
the shared global map and the instance's map-update timestamp (both
shared cells, embedded by value and mutated only by the `mapUpdate`
event below), the private snapshot `global_peer_map_clone`, and the
snapshot's recorded `last_update_time`. -/
structure RouteCostCalculatorImpl where
  global_peer_map : GlobalPeerMap
  global_peer_map_clone : GlobalPeerMap
  last_update_time : Nat
  global_peer_map_update_time : Nat
deriving DecidableEq, Repr

/-- `RouteCostCalculatorImpl::calculate_cost`: look up
`clone[src].direct_peers[dst].latency_ms` and fall back to 80.  Reads
only the snapshot, never the shared map. -/
def calculate_cost (c : RouteCostCalculatorImpl) (src dst : PeerId) : Int :=
  let ret := (c.global_peer_map_clone.map.lookup src).bind
    (fun src_peer_info => src_peer_info.direct_peers.lookup dst)
  ((ret.map fun info => info.latency_ms).getD 80)

/-- `RouteCostCalculatorImpl::begin_update`: clone the shared global map
into the snapshot. -/
def begin_update (c : RouteCostCalculatorImpl) : RouteCostCalculatorImpl :=
  { c with global_peer_map_clone := c.global_peer_map }

/-- `RouteCostCalculatorImpl::end_update`: record the instance's current
map-update timestamp. -/
def end_update (c : RouteCostCalculatorImpl) : RouteCostCalculatorImpl :=
  { c with last_update_time := c.global_peer_map_update_time }

/-- `RouteCostCalculatorImpl::need_update`: recorded time strictly
before the instance's map-update time. -/
def need_update (c : RouteCostCalculatorImpl) : Bool :=
  decide (c.last_update_time < c.global_peer_map_update_time)

/-- `PeerCenterInstance::get_cost_calculator`: empty snapshot, recorded
time one second before the instance's current map-update time `t0`
(`Instant` arithmetic, modelled by truncated `Nat` subtraction). -/
def get_cost_calculator (m : GlobalPeerMap) (t0 : Nat) : RouteCostCalculatorImpl :=
  { global_peer_map := m
    global_peer_map_clone := GlobalPeerMap.new
    last_update_time := t0 - 1
    global_peer_map_update_time := t0 }

/-- Events that can touch the calculator's observable state: the
calculator's three methods, and a store of a fresh map and timestamp by
the fetch job (`mapUpdate`). -/
inductive CcEvent
  | beginUpdate
  | endUpdate
  | calcCost (src dst : PeerId)
  | mapUpdate (m : GlobalPeerMap) (t : Nat)

/-- Effect of one event on the calculator state. -/
def cc_step (c : RouteCostCalculatorImpl) : CcEvent → RouteCostCalculatorImpl
  | .beginUpdate => begin_update c
  | .endUpdate => end_update c
  | .calcCost _ _ => c
  | .mapUpdate m t =>
      { c with global_peer_map := m, global_peer_map_update_time := t }

/-- Validity of an event sequence from a state: the instance's
map-update timestamp (taken from `Instant::now()`) only ever moves
forward. -/
def ValidEvents (c : RouteCostCalculatorImpl) : List CcEvent → Prop
  | [] => True
  | e :: rest =>
      (match e with
       | .mapUpdate _ t => c.global_peer_map_update_time ≤ t
       | _ => True) ∧ ValidEvents (cc_step c e) rest

/-- Run a sequence of events from a state. -/
def cc_run (c : RouteCostCalculatorImpl) (events : List CcEvent) :
    RouteCostCalculatorImpl :=
  events.foldl cc_step c

/-- A concrete outbound packet: a four-byte peer-manager header of
zeros followed by a payload that starts an IPv4 header (first byte
0x45, version nibble 4). -/
def stale_header_packet : ZCPacket :=
  { inner := [0, 0, 0, 0, 0x45, 0x00, 0x00, 0x14], payload_offset := 4 }

/-- A concrete cost-calculator state whose snapshot records latency 15
from peer 1 to peer 2 and nothing else. -/
def cost_calc_example : RouteCostCalculatorImpl :=
  { global_peer_map := GlobalPeerMap.new
    global_peer_map_clone := ⟨[(1, ⟨[(2, ⟨15⟩)]⟩)]⟩
    last_update_time := 0
    global_peer_map_update_time := 0 }

/- ------------------------------------------------------------------ -/
/- Theorems                                                           -/
/- ------------------------------------------------------------------ -/

/-- C1: the claim says that with packet info active, a payload whose
first nibble is 4 (IPv4) converts successfully with the protocol taken
from the first payload byte (output position 4).  The code instead
infers the protocol from the stale byte at output position 2 of the
split-off window, because the byte-slice writer advanced past the
flags; on `stale_header_packet` the payload is IPv4 yet `into_bytes`
fails with the neither-IPv4-nor-IPv6 error, on both platforms. -/
theorem into_bytes_rejects_ipv4_payload :
    infer_proto (stale_header_packet.inner.drop stale_header_packet.payload_offset) =
      PacketProtocol.IPv4
    ∧ into_bytes .macos true stale_header_packet =
        some (.error "neither an IPv4 nor IPv6 packet")
    ∧ into_bytes .linux true stale_header_packet =
        some (.error "neither an IPv4 nor IPv6 packet") :=
  ⟨rfl, rfl, rfl⟩

/-- C6: with `has_packet_info = false` and `payload_offset ≥ 4` (the
asserted precondition; `payload_offset ≤ inner.length` is the container
invariant of `ZCPacket`, whose payload lies inside its buffer),
`into_bytes` returns exactly `inner[payload_offset..]`, unchanged, with
no prefix. -/
theorem into_bytes_without_packet_info (pl : Platform) (p : ZCPacket)
    (h4 : 4 ≤ p.payload_offset) (hlen : p.payload_offset ≤ p.inner.length) :
    into_bytes pl false p = some (.ok (p.inner.drop p.payload_offset)) := by
  unfold into_bytes
  rw [if_neg (Nat.not_lt.mpr h4)]
  simp [hlen]

/-- Witness for C6 at a concrete packet. -/
theorem into_bytes_without_packet_info_witness :
    into_bytes .linux false ⟨[1, 2, 3, 4, 5, 6], 4⟩ = some (.ok [5, 6]) :=
  into_bytes_without_packet_info .linux ⟨[1, 2, 3, 4, 5, 6], 4⟩
    (by decide) (by decide)

/-- C9 counterexample: the claim says `set_queue_num(n)` fails for
`n ≠ 1`; in the code it stores the value and succeeds for every `n`. -/
theorem set_queue_num_two_succeeds :
    set_queue_num VirtualNic.new 2 =
      .ok { dev_name := "", queue_num := 2, ifname := none } :=
  rfl

/-- C9 amended: `set_queue_num` always stores the value and succeeds;
the `queue_num ≠ 1` check happens at device creation instead, where
`create_dev_ret_err` halts (`todo!`, modelled `none`) when the stored
count is not 1 and passes the gate when it is 1. -/
theorem set_queue_num_stores_and_create_dev_gates (v : VirtualNic) (n : Nat) :
    set_queue_num v n = .ok { v with queue_num := n }
    ∧ (n ≠ 1 → create_dev_queue_gate { v with queue_num := n } = none)
    ∧ create_dev_queue_gate { v with queue_num := 1 } =
        some { v with queue_num := 1 } := by
  refine ⟨rfl, ?_, ?_⟩
  · intro hn
    simp [create_dev_queue_gate, hn]
  · simp [create_dev_queue_gate]

/-- Witness for the amended C9 at queue count 3. -/
theorem set_queue_num_stores_and_create_dev_gates_witness :
    set_queue_num VirtualNic.new 3 = .ok { VirtualNic.new with queue_num := 3 }
    ∧ create_dev_queue_gate { VirtualNic.new with queue_num := 3 } = none :=
  ⟨(set_queue_num_stores_and_create_dev_gates VirtualNic.new 3).1,
   (set_queue_num_stores_and_create_dev_gates VirtualNic.new 3).2.1 (by decide)⟩

/-- C5: the three non-transport outcomes of the fetch iteration: an
inner error returns sleep 1000 with the state untouched; `None` returns
sleep 5000 with the state untouched; `Some(resp)` returns sleep 5000
and stores the received map, the received digest and the current
time. -/
theorem get_global_info_iteration_cases (st : FetchState) (now : Nat)
    (resp : GetGlobalPeerMapResponse) :
    get_global_info_iteration st now (.error ()) = (1000, st)
    ∧ get_global_info_iteration st now (.ok none) = (5000, st)
    ∧ get_global_info_iteration st now (.ok (some resp)) =
        (5000, { global_peer_map := resp.global_peer_map,
                 digest := resp.digest, last_update_time := now }) :=
  ⟨rfl, rfl, rfl⟩

/-- C8: the three outcomes of a completed pull on the tunnel read
stream: a 0-byte read ends the stream; a read of n > 0 bytes yields the
current packet and clears the buffered slot; an I/O error ends the
stream without yielding. -/
theorem poll_next_cases (cur : Option ZCPacket) (bytes : List Byte) :
    poll_next cur (.ok []) =
      (.endOfStream, some (cur.getD new_with_reserved_payload))
    ∧ (bytes ≠ [] →
        poll_next cur (.ok bytes) =
          (.yielded { cur.getD new_with_reserved_payload with
              inner := (cur.getD new_with_reserved_payload).inner ++ bytes },
            none))
    ∧ poll_next cur .ioError =
        (.endOfStream, some (cur.getD new_with_reserved_payload)) := by
  refine ⟨rfl, ?_, rfl⟩
  intro h
  cases bytes with
  | nil => exact absurd rfl h
  | cons b bs => rfl

/-- Witness for C8 at a concrete buffered packet and read. -/
theorem poll_next_cases_witness :
    poll_next (some ⟨[7], 0⟩) (.ok [9]) = (.yielded ⟨[7, 9], 0⟩, none) :=
  (poll_next_cases (some ⟨[7], 0⟩) [9]).2.1 (by decide)

/-- C3: when the elected center peer equals the last reported one, the
last report is under 60 seconds old and the direct-peer set is
unchanged, the report iteration issues no RPC and returns sleep 5000
with the state untouched; and whenever the elected center peer differs
from the last reported one, the RPC is issued. -/
theorem report_iteration_skip_and_leader_change (center_peer : PeerId)
    (now : Nat) (peer_list : List PeerId) (st : ReportState)
    (rpc : ReportRpcResult) :
    (center_peer = st.last_center_peer → now - st.last_report_time < 60 →
      peer_list = st.last_report_peers →
      report_peers_iteration center_peer now peer_list st rpc =
        (false, .ok (5000, st)))
    ∧ (center_peer ≠ st.last_center_peer →
      (report_peers_iteration center_peer now peer_list st rpc).1 = true) := by
  constructor
  · intro h1 h2 h3
    have hs : report_skip center_peer now peer_list st = true := by
      simp [report_skip, h1, h2, h3]
    simp [report_peers_iteration, hs]
  · intro h
    have hs : report_skip center_peer now peer_list st = false := by
      simp [report_skip, h]
    cases rpc <;> simp [report_peers_iteration, hs]

/-- Witness for C3: a skipped iteration and a leader-change
iteration. -/
theorem report_iteration_skip_and_leader_change_witness :
    report_peers_iteration 1 10 [] ⟨1, [], 0⟩ .okResult =
      (false, .ok (5000, ⟨1, [], 0⟩))
    ∧ (report_peers_iteration 2 10 [] ⟨1, [], 0⟩ .okResult).1 = true :=
  ⟨(report_iteration_skip_and_leader_change 1 10 [] ⟨1, [], 0⟩ .okResult).1
      rfl (by decide) rfl,
   (report_iteration_skip_and_leader_change 2 10 [] ⟨1, [], 0⟩ .okResult).2
      (by decide)⟩

/-- C10: an iteration whose `report_peers` RPC returned an application
error leaves the three persisted fields unchanged and still returns
sleep 5000; and because the state is unchanged, every later iteration
seeing the same center peer and peer set (at any time not before this
one) again issues the RPC — the skip condition cannot suppress the
retry. -/
theorem report_iteration_app_error_preserves (center_peer : PeerId)
    (now : Nat) (peer_list : List PeerId) (st : ReportState)
    (hiss : (report_peers_iteration center_peer now peer_list st .errResult).1
      = true) :
    report_peers_iteration center_peer now peer_list st .errResult =
      (true, .ok (5000, st))
    ∧ ∀ now2 rpc2, now ≤ now2 →
        (report_peers_iteration center_peer now2 peer_list st rpc2).1 = true := by
  have hs : report_skip center_peer now peer_list st = false := by
    by_contra hc
    rw [Bool.not_eq_false] at hc
    simp [report_peers_iteration, hc] at hiss
  constructor
  · simp [report_peers_iteration, hs]
  · intro now2 rpc2 hle
    have hs2 : report_skip center_peer now2 peer_list st = false := by
      simp only [report_skip, Bool.and_eq_false_iff, beq_eq_false_iff_ne,
        decide_eq_false_iff_not, Nat.not_lt] at hs ⊢
      rcases hs with (h | h) | h
      · left; left; exact h
      · left; right; omega
      · right; exact h
    cases rpc2 <;> simp [report_peers_iteration, hs2]

/-- Witness for C10: an application-error iteration at a changed
center peer, and the forced retry 60 seconds later. -/
theorem report_iteration_app_error_preserves_witness :
    report_peers_iteration 2 10 [] ⟨1, [], 0⟩ .errResult =
      (true, .ok (5000, ⟨1, [], 0⟩))
    ∧ (report_peers_iteration 2 70 [] ⟨1, [], 0⟩ .okResult).1 = true :=
  ⟨(report_iteration_app_error_preserves 2 10 [] ⟨1, [], 0⟩ rfl).1,
   (report_iteration_app_error_preserves 2 10 [] ⟨1, [], 0⟩ rfl).2
      70 .okResult (by decide)⟩

/-- The fold of `select_center_peer` returns its accumulator or one of
the route ids. -/
theorem center_fold_mem (routes : List Route) : ∀ acc : PeerId,
    routes.foldl (fun min_peer r => if r.peer_id < min_peer then r.peer_id else min_peer) acc = acc
    ∨ routes.foldl (fun min_peer r => if r.peer_id < min_peer then r.peer_id else min_peer) acc
        ∈ routes.map Route.peer_id := by
  induction routes with
  | nil =>
    intro acc
    left
    rfl
  | cons r l ih =>
    intro acc
    simp only [List.foldl_cons, List.map_cons]
    rcases ih (if r.peer_id < acc then r.peer_id else acc) with h | h
    · rw [h]
      by_cases hc : r.peer_id < acc
      · right
        rw [if_pos hc]
        exact List.mem_cons_self _ _
      · left
        rw [if_neg hc]
    · right
      exact List.mem_cons_of_mem _ h

/-- The fold of `select_center_peer` is a lower bound of the
accumulator and of every route id. -/
theorem center_fold_le (routes : List Route) : ∀ acc : PeerId,
    routes.foldl (fun min_peer r => if r.peer_id < min_peer then r.peer_id else min_peer) acc ≤ acc
    ∧ ∀ r ∈ routes,
        routes.foldl (fun min_peer r => if r.peer_id < min_peer then r.peer_id else min_peer) acc
          ≤ r.peer_id := by
  induction routes with
  | nil =>
    intro acc
    exact ⟨le_refl _, by simp⟩
  | cons r l ih =>
    intro acc
    simp only [List.foldl_cons]
    obtain ⟨h1, h2⟩ := ih (if r.peer_id < acc then r.peer_id else acc)
    have hacc : (if r.peer_id < acc then r.peer_id else acc) ≤ acc := by
      by_cases hc : r.peer_id < acc
      · rw [if_pos hc]
        exact Nat.le_of_lt hc
      · rw [if_neg hc]
    have hr : (if r.peer_id < acc then r.peer_id else acc) ≤ r.peer_id := by
      by_cases hc : r.peer_id < acc
      · rw [if_pos hc]
      · rw [if_neg hc]
        exact Nat.le_of_not_lt hc
    refine ⟨le_trans h1 hacc, ?_⟩
    intro r2 hr2
    rcases List.mem_cons.mp hr2 with h | h
    · rw [h]
      exact le_trans h1 hr
    · exact h2 r2 h

/-- C4: `select_center_peer` returns `None` exactly when the route list
is empty, and otherwise returns the minimum, under the `PeerId` order,
of the local peer id together with every route entry's peer id. -/
theorem select_center_peer_spec (my_peer_id : PeerId) (routes : List Route) :
    (select_center_peer my_peer_id routes = none ↔ routes = [])
    ∧ ∀ m, select_center_peer my_peer_id routes = some m →
        (m = my_peer_id ∨ m ∈ routes.map Route.peer_id)
        ∧ m ≤ my_peer_id ∧ ∀ r ∈ routes, m ≤ r.peer_id := by
  constructor
  · cases routes with
    | nil => simp [select_center_peer]
    | cons r l => simp [select_center_peer]
  · intro m hm
    have hne : routes.isEmpty = false := by
      cases routes with
      | nil => simp [select_center_peer] at hm
      | cons r l => rfl
    unfold select_center_peer at hm
    rw [hne] at hm
    simp only [Bool.false_eq_true, if_false, Option.some.injEq] at hm
    rw [← hm]
    exact ⟨center_fold_mem routes my_peer_id,
      (center_fold_le routes my_peer_id).1,
      (center_fold_le routes my_peer_id).2⟩

/-- Witness for C4 on the spec's election scenario: local id 7, routes
to 3 and 9, elected center 3. -/
theorem select_center_peer_spec_witness :
    select_center_peer 7 [⟨3⟩, ⟨9⟩] = some 3
    ∧ ((3 = 7 ∨ 3 ∈ [Route.mk 3, Route.mk 9].map Route.peer_id)
        ∧ 3 ≤ 7 ∧ ∀ r ∈ [Route.mk 3, Route.mk 9], 3 ≤ r.peer_id) :=
  ⟨rfl, (select_center_peer_spec 7 [⟨3⟩, ⟨9⟩]).2 3 rfl⟩

/-- Along any valid event sequence the snapshot's recorded time never
exceeds the instance's map-update time. -/
theorem cc_run_time_le (events : List CcEvent) :
    ∀ c : RouteCostCalculatorImpl, ValidEvents c events →
    c.last_update_time ≤ c.global_peer_map_update_time →
    (cc_run c events).last_update_time ≤
      (cc_run c events).global_peer_map_update_time := by
  induction events with
  | nil =>
    intro c _ h
    exact h
  | cons e rest ih =>
    intro c hv h
    obtain ⟨hg, hv2⟩ := hv
    simp only [cc_run, List.foldl_cons]
    have h2 : (cc_step c e).last_update_time ≤
        (cc_step c e).global_peer_map_update_time := by
      cases e with
      | beginUpdate => exact h
      | endUpdate => simp [cc_step, end_update]
      | calcCost s d => exact h
      | mapUpdate m t =>
        simp only [cc_step]
        exact le_trans h hg
    exact ih (cc_step c e) hv2 h2

/-- C2: in every state reachable from construction of the cost
calculator by begin_update/end_update/calculate_cost calls and
forward-moving map updates, `need_update` returns `false` exactly when
the recorded `last_update_time` equals the instance's map-update
timestamp. -/
theorem need_update_iff_time_equal (m : GlobalPeerMap) (t0 : Nat)
    (events : List CcEvent)
    (hv : ValidEvents (get_cost_calculator m t0) events) :
    need_update (cc_run (get_cost_calculator m t0) events) = false ↔
      (cc_run (get_cost_calculator m t0) events).last_update_time =
        (cc_run (get_cost_calculator m t0) events).global_peer_map_update_time := by
  have hle := cc_run_time_le events (get_cost_calculator m t0) hv
    (Nat.sub_le t0 1)
  unfold need_update
  simp only [decide_eq_false_iff_not, Nat.not_lt]
  omega

/-- Witness for C2 after one `end_update`. -/
theorem need_update_iff_time_equal_witness :
    need_update (cc_run (get_cost_calculator GlobalPeerMap.new 5)
        [CcEvent.endUpdate]) = false ↔
      (cc_run (get_cost_calculator GlobalPeerMap.new 5)
          [CcEvent.endUpdate]).last_update_time =
        (cc_run (get_cost_calculator GlobalPeerMap.new 5)
            [CcEvent.endUpdate]).global_peer_map_update_time :=
  need_update_iff_time_equal GlobalPeerMap.new 5 [CcEvent.endUpdate]
    ⟨trivial, trivial⟩

/-- C7: `calculate_cost src dst` returns the latency recorded under
`snapshot[src].direct_peers[dst]`, 80 when either lookup misses; it
reads only the snapshot (changing the shared map and both timestamps
changes nothing), and `begin_update` captures the shared map as the
snapshot. -/
theorem calculate_cost_spec (c : RouteCostCalculatorImpl) (src dst : PeerId) :
    (∀ pinfo cinfo, c.global_peer_map_clone.map.lookup src = some pinfo →
        pinfo.direct_peers.lookup dst = some cinfo →
        calculate_cost c src dst = cinfo.latency_ms)
    ∧ (c.global_peer_map_clone.map.lookup src = none →
        calculate_cost c src dst = 80)
    ∧ (∀ pinfo, c.global_peer_map_clone.map.lookup src = some pinfo →
        pinfo.direct_peers.lookup dst = none →
        calculate_cost c src dst = 80)
    ∧ (∀ m t u, calculate_cost
        { c with global_peer_map := m, last_update_time := t,
                 global_peer_map_update_time := u } src dst =
          calculate_cost c src dst)
    ∧ (begin_update c).global_peer_map_clone = c.global_peer_map := by
  refine ⟨?_, ?_, ?_, ?_, rfl⟩
  · intro pinfo cinfo h1 h2
    simp [calculate_cost, h1, h2]
  · intro h
    simp [calculate_cost, h]
  · intro pinfo h1 h2
    simp [calculate_cost, h1, h2]
  · intro m t u
    rfl

/-- Witness for C7: a hit returns the recorded latency, a miss returns
the default 80. -/
theorem calculate_cost_spec_witness :
    calculate_cost cost_calc_example 1 2 = 15
    ∧ calculate_cost cost_calc_example 3 2 = 80 :=
  ⟨(calculate_cost_spec cost_calc_example 1 2).1 ⟨[(2, ⟨15⟩)]⟩ ⟨15⟩ rfl rfl,
   (calculate_cost_spec cost_calc_example 3 2).2.1 rfl⟩

end EasyTier
